import Mathlib

/-!
Shallow embedding of the car-rental booking backend (a single Express/Mongoose
server file).  Pure request-handling logic is translated into Lean functions;
the external document store is modelled by explicit state passing (a list of
booking records) plus outcome parameters for the save/find operations, which
are decided by the database at runtime.  Current time, random draws and the
environment-mode flag are explicit parameters.
-/

namespace CarRental

/-- JavaScript truthiness for a request-body field that is either absent
(`none`, i.e. `undefined`) or a string.  `!x` in the handler's validation is
true exactly when the field is absent or the empty string. -/
def jsTruthy : Option String → Bool
  | none => false
  | some s => s ≠ ""

/-- Characters skipped by JS `parseInt`/`parseFloat` before the numeral. -/
def jsWhitespace (c : Char) : Bool :=
  c = ' ' ∨ c = '\t' ∨ c = '\n' ∨ c = '\r'

/-- Numeric value of a list of decimal digit characters. -/
def digitsToNat (ds : List Char) : Nat :=
  ds.foldl (fun a c => 10 * a + (c.toNat - '0'.toNat)) 0

/-- Leading decimal digits of a character list. -/
def leadingDigits (cs : List Char) : List Char :=
  cs.takeWhile Char.isDigit

/-- Parse the leading decimal-digit run, `none` when there is none. -/
def parseNatPrefix (cs : List Char) : Option Nat :=
  if (leadingDigits cs).isEmpty then none else some (digitsToNat (leadingDigits cs))

/-- Model of the JS builtin `parseInt` (radix 10) on decimal numerals:
skip leading whitespace, optional sign, then the longest leading digit run;
`none` stands for `NaN`.  `parseInt(undefined)` is `NaN`. -/
def jsParseInt : Option String → Option Int
  | none => none
  | some s =>
    match s.data.dropWhile jsWhitespace with
    | '-' :: rest => (parseNatPrefix rest).map (fun n => -(n : Int))
    | '+' :: rest => (parseNatPrefix rest).map (fun n => (n : Int))
    | cs => (parseNatPrefix cs).map (fun n => (n : Int))

/-- Fractional value of a digit run read after the decimal point. -/
def fracOfDigits (ds : List Char) : ℚ :=
  (digitsToNat ds : ℚ) / ((10 : ℚ) ^ ds.length)

/-- Unsigned decimal numeral with optional fractional part, as a rational. -/
def parseDecPrefix (cs : List Char) : Option ℚ :=
  let intDs := leadingDigits cs
  match cs.drop intDs.length with
  | '.' :: rest =>
    let fracDs := leadingDigits rest
    if intDs.isEmpty ∧ fracDs.isEmpty then none
    else some ((digitsToNat intDs : ℚ) + fracOfDigits fracDs)
  | _ => if intDs.isEmpty then none else some (digitsToNat intDs : ℚ)

/-- Model of the JS builtin `parseFloat` on plain decimal numerals (no
exponent forms, which the application never sends): skip leading whitespace,
optional sign, digits with optional fraction; `none` stands for `NaN`. -/
def jsParseFloat : Option String → Option ℚ
  | none => none
  | some s =>
    match s.data.dropWhile jsWhitespace with
    | '-' :: rest => (parseDecPrefix rest).map (fun q => -q)
    | '+' :: rest => (parseDecPrefix rest).map (fun q => q)
    | cs => (parseDecPrefix cs).map (fun q => q)

/-- JS `x || d` applied to a `parseInt` result: `NaN` (`none`) and `0` are
falsy, so both fall back to the default. -/
def jsOrInt (x : Option Int) (d : Int) : Int :=
  match x with
  | none => d
  | some v => if v = 0 then d else v

/-- JS `x || d` applied to a `parseFloat` result. -/
def jsOrRat (x : Option ℚ) (d : ℚ) : ℚ :=
  match x with
  | none => d
  | some v => if v = 0 then d else v

/-- Model of the JS string method `trim()`: remove whitespace from both
ends of the string. -/
def jsTrim (s : String) : String :=
  ⟨((s.data.dropWhile Char.isWhitespace).reverse.dropWhile Char.isWhitespace).reverse⟩

/-- JS `x || ""` applied to an optional string (used for `specialRequests`). -/
def jsOrEmpty (x : Option String) : String :=
  match x with
  | none => ""
  | some s => s

/-- The request body as read by the create handler: the twelve destructured
fields (absent = `undefined` = `none`; numeric JSON inputs are represented by
their decimal string, matching the ToString coercion JS applies inside
`parseInt`/`parseFloat`), plus the remaining fields of the JSON body, which
the handler never destructures. -/
structure ReqBody where
  name : Option String
  email : Option String
  phone : Option String
  carModel : Option String
  carId : Option String
  pickupDate : Option String
  returnDate : Option String
  location : Option String
  requests : Option String
  dailyRate : Option String
  rentalDays : Option String
  totalAmount : Option String
  extra : List (String × String)
deriving DecidableEq

/-- A persisted booking record.  `_id` is the server-assigned identifier and
`createdAt` the schema's `Date.now` default, both assigned at save time.
`pickupDate`/`returnDate` hold the raw request text whose `new Date(...)`
parse is not interpreted (no claim depends on the parsed value). -/
structure BookingRecord where
  _id : Nat
  name : String
  email : String
  phone : String
  carModel : String
  carId : Int
  pickupDate : Option String
  returnDate : Option String
  pickupLocation : Option String
  specialRequests : String
  dailyRate : ℚ
  rentalDays : Int
  totalAmount : ℚ
  bookingId : String
  status : String
  createdAt : Nat
deriving DecidableEq

/-- A JS error as seen by the handler's catch blocks: its `name`, optional
numeric `code` (`11000` is the duplicate-key code) and `message`. -/
structure JsError where
  name : String
  code : Option Int
  message : String
deriving DecidableEq

/-- Outcome of one `save()` attempt, decided by the external store. -/
inductive SaveOutcome where
  | ok : SaveOutcome
  | fail : JsError → SaveOutcome
deriving DecidableEq

/-- The reduced view of the stored record in the `201` body. -/
structure CreatedView where
  id : Nat
  name : String
  carModel : String
  pickupDate : Option String
  totalAmount : ℚ
deriving DecidableEq

/-- The reduced projection of a record in the list response. -/
structure ListedBooking where
  id : Nat
  bookingId : String
  name : String
  carModel : String
  status : String
  createdAt : Nat
deriving DecidableEq

/-- JSON values occurring in this service's response bodies. -/
inductive JVal where
  | jB : Bool → JVal
  | jS : String → JVal
  | jI : Int → JVal
  | jView : CreatedView → JVal
  | jList : List ListedBooking → JVal
deriving DecidableEq

/-- An HTTP response: status code and JSON body as an association list
(`undefined`-valued keys are dropped by `JSON.stringify`, so a conditional
field is modelled by conditionally including the pair). -/
structure Response where
  status : Nat
  body : List (String × JVal)
deriving DecidableEq

/-- Look up a key of a JSON body. -/
def getField (body : List (String × JVal)) (k : String) : Option JVal :=
  (body.find? (fun p => p.1 = k)).map (fun p => p.2)

/-- `CR${t}${r}` — the booking-identifier template literal. -/
def genBookingId (t r : Nat) : String :=
  "CR" ++ toString t ++ toString r

/-- The `bookingData` object built by the create handler from the validated
body and a generated identifier (`_id`/`createdAt` are filled at save time). -/
def bookingDataOf (b : ReqBody) (bid : String) : BookingRecord :=
  { _id := 0
    name := jsTrim (jsOrEmpty b.name)
    email := jsTrim (jsOrEmpty b.email)
    phone := jsTrim (jsOrEmpty b.phone)
    carModel := jsOrEmpty b.carModel
    carId := jsOrInt (jsParseInt b.carId) 1
    pickupDate := b.pickupDate
    returnDate := b.returnDate
    pickupLocation := b.location
    specialRequests := jsOrEmpty b.requests
    dailyRate := jsOrRat (jsParseFloat b.dailyRate) 0
    rentalDays := jsOrInt (jsParseInt b.rentalDays) 1
    totalAmount := jsOrRat (jsParseFloat b.totalAmount) 0
    bookingId := bid
    status := "confirmed"
    createdAt := 0 }

/-- A successful `save()`: the store assigns `_id` and the `createdAt`
default (instantiation time `tc`) and appends the record. -/
def persist (store : List BookingRecord) (pre : BookingRecord) (tc : Nat) :
    BookingRecord :=
  { pre with _id := store.length, createdAt := tc }

/-- `dbError.code === 11000` — the duplicate-key test. -/
def isDupKey (e : JsError) : Bool :=
  e.code = some 11000

/-- The create handler's catch-block response: `ValidationError` maps to
`400`, code `11000` to `409`, anything else to `500`; the `error` field is
present only in development mode, the `code` field whenever the error has
one. -/
def errorResponse (dev : Bool) (e : JsError) : Response :=
  let statusCode : Nat :=
    if e.name = "ValidationError" then 400
    else if e.code = some 11000 then 409
    else 500
  let errorMessage : String :=
    if e.name = "ValidationError" then "Invalid booking data provided."
    else if e.code = some 11000 then "Duplicate booking detected. Please try again."
    else "An unexpected error occurred. Please try again."
  { status := statusCode
    body := [("success", JVal.jB false), ("message", JVal.jS errorMessage)]
      ++ (if dev then [("error", JVal.jS e.message)] else [])
      ++ (match e.code with
          | some c => [("code", JVal.jI c)]
          | none => []) }

/-- The `201 Created` response body. -/
def createdResponse (saved : BookingRecord) (tsResp : String) : Response :=
  { status := 201
    body := [("success", JVal.jB true),
             ("message", JVal.jS "🎉 Booking confirmed successfully!"),
             ("bookingId", JVal.jS saved.bookingId),
             ("booking", JVal.jView
               { id := saved._id
                 name := saved.name
                 carModel := saved.carModel
                 pickupDate := saved.pickupDate
                 totalAmount := saved.totalAmount }),
             ("timestamp", JVal.jS tsResp)] }

/-- The `503` response sent when `mongoose.connection.readyState !== 1`. -/
def dbUnavailableResponse : Response :=
  { status := 503
    body := [("success", JVal.jB false),
             ("message", JVal.jS "Database not available. Please try again later."),
             ("error", JVal.jS "Database disconnected")] }

/-- The `400` validation-failure response. -/
def validationFailResponse : Response :=
  { status := 400
    body := [("success", JVal.jB false),
             ("message", JVal.jS "Please provide all required fields: name, email, phone, car model")] }

/-- All inputs of one create-request run that the handler reads from its
environment: connection state, request body, the `Date.now()` value and
bounded random draw of each identifier generation (`Math.floor(Math.random()
* 1000)` lies in `0..999`, the retry draw in `0..9999`), the document
instantiation times used for the `createdAt` default, the store's outcome
for the first and the retry save, the `NODE_ENV === 'development'` flag, and
the ISO timestamp echoed in the success body. -/
structure CreateIn where
  conn : Fin 4
  body : ReqBody
  t1 : Nat
  r1 : Fin 1000
  t2 : Nat
  r2 : Fin 10000
  tc1 : Nat
  tc2 : Nat
  o1 : SaveOutcome
  o2 : SaveOutcome
  dev : Bool
  tsResp : String

/-- The `POST /api/bookings` handler: connection check, truthiness
validation of the four required fields, identifier generation, one save
attempt with a single duplicate-key retry, and the error mapping of the
outer catch.  Returns the response and the store after the request. -/
def createBooking (inp : CreateIn) (store : List BookingRecord) :
    Response × List BookingRecord :=
  if inp.conn.val ≠ 1 then (dbUnavailableResponse, store)
  else if ¬(jsTruthy inp.body.name ∧ jsTruthy inp.body.email ∧
            jsTruthy inp.body.phone ∧ jsTruthy inp.body.carModel) then
    (validationFailResponse, store)
  else
    let bookingData := bookingDataOf inp.body (genBookingId inp.t1 inp.r1.val)
    match inp.o1 with
    | SaveOutcome.ok =>
      let saved := persist store bookingData inp.tc1
      (createdResponse saved inp.tsResp, store ++ [saved])
    | SaveOutcome.fail e =>
      if isDupKey e then
        let retryData := { bookingData with
                           bookingId := genBookingId inp.t2 inp.r2.val }
        match inp.o2 with
        | SaveOutcome.ok =>
          let saved := persist store retryData inp.tc2
          (createdResponse saved inp.tsResp, store ++ [saved])
        | SaveOutcome.fail e2 => (errorResponse inp.dev e2, store)
      else (errorResponse inp.dev e, store)

/-- Newest-first order used by `sort(\x7b createdAt: -1 \x7d)`. -/
def newerFirst (a b : BookingRecord) : Prop :=
  b.createdAt ≤ a.createdAt

instance : DecidableRel newerFirst := fun a b =>
  inferInstanceAs (Decidable (b.createdAt ≤ a.createdAt))

/-- The list handler's projection of one record. -/
def projectBooking (b : BookingRecord) : ListedBooking :=
  { id := b._id
    bookingId := b.bookingId
    name := b.name
    carModel := b.carModel
    status := b.status
    createdAt := b.createdAt }

/-- `Booking.find().limit(10).sort(\x7b createdAt: -1 \x7d)` — the store sorts
newest-first, then applies the limit. -/
def findLatestTen (store : List BookingRecord) : List BookingRecord :=
  (store.insertionSort newerFirst).take 10

/-- The `GET /api/bookings` handler.  The outcome of the store read is a
parameter: `none` means the query succeeded, `some e` that it threw `e`
(which is what happens, after a buffering timeout, when the connection is
down).  The failure body always carries `error: error.message`. -/
def listBookings (store : List BookingRecord) (o : Option JsError) : Response :=
  match o with
  | some e =>
    { status := 500
      body := [("success", JVal.jB false),
               ("message", JVal.jS "Failed to fetch bookings"),
               ("error", JVal.jS e.message)] }
  | none =>
    let bookings := (findLatestTen store).map projectBooking
    { status := 200
      body := [("success", JVal.jB true),
               ("count", JVal.jI bookings.length),
               ("bookings", JVal.jList bookings)] }

/-- The readyState names array of the db-status handler. -/
def stateName : Fin 4 → String
  | 0 => "disconnected"
  | 1 => "connected"
  | 2 => "connecting"
  | 3 => "disconnecting"

/-- The `GET /` health-check handler (status 200 via `res.json`). -/
def rootHandler (conn : Fin 4) (ts : String) : Response :=
  { status := 200
    body := [("message", JVal.jS "🚗 Car Rental Backend API"),
             ("status", JVal.jS "running"),
             ("timestamp", JVal.jS ts),
             ("database", JVal.jS (if conn.val = 1 then "connected" else "disconnected")),
             ("version", JVal.jS "1.0.0")] }

/-- The `GET /api/db-status` handler: when not connected it reports the
state; when connected it reports the count probe (`-1` if the probe failed,
that failure being swallowed by `.catch(() => -1)`). -/
def dbStatusHandler (conn : Fin 4) (countResult : Option Int) (dbName : String) :
    Response :=
  if conn.val ≠ 1 then
    { status := 200
      body := [("success", JVal.jB false),
               ("message", JVal.jS ("Database is " ++ stateName conn)),
               ("state", JVal.jS (stateName conn))] }
  else
    { status := 200
      body := [("success", JVal.jB true),
               ("message", JVal.jS "Database is connected and responsive"),
               ("state", JVal.jS (stateName conn)),
               ("bookingCount", JVal.jI (match countResult with
                 | some c => c
                 | none => -1)),
               ("database", JVal.jS dbName)] }

/-- The 404 fallback. -/
def notFoundHandler (originalUrl : String) : Response :=
  { status := 404
    body := [("success", JVal.jB false),
             ("message", JVal.jS ("Route " ++ originalUrl ++ " not found"))] }

/-- The top-level error-handling middleware. -/
def errorMiddleware (dev : Bool) (err : JsError) : Response :=
  { status := 500
    body := [("success", JVal.jB false),
             ("message", JVal.jS "Internal server error")]
      ++ (if dev then [("error", JVal.jS err.message)] else []) }

/-- One inbound request, for reasoning about the store across a whole
execution: only the create handler ever writes, no exposed route updates or
deletes. -/
inductive ApiOp where
  | create : CreateIn → ApiOp
  | list : Option JsError → ApiOp
  | root : Fin 4 → String → ApiOp
  | dbStatus : Fin 4 → Option Int → String → ApiOp
  | notFound : String → ApiOp
  | errorFallback : Bool → JsError → ApiOp

/-- The store after handling one request. -/
def applyOp (store : List BookingRecord) : ApiOp → List BookingRecord
  | ApiOp.create inp => (createBooking inp store).2
  | ApiOp.list _ => store
  | ApiOp.root _ _ => store
  | ApiOp.dbStatus _ _ _ => store
  | ApiOp.notFound _ => store
  | ApiOp.errorFallback _ _ => store

/-- The store after a sequence of requests. -/
def runOps (ops : List ApiOp) (store : List BookingRecord) : List BookingRecord :=
  ops.foldl applyOp store

/-- Whether a body has key `k` bound to a JSON boolean. -/
def hasBoolKey (body : List (String × JVal)) (k : String) : Bool :=
  match getField body k with
  | some (JVal.jB _) => true
  | _ => false

/-- Whether a body has key `k` bound to a JSON string. -/
def hasStrKey (body : List (String × JVal)) (k : String) : Bool :=
  match getField body k with
  | some (JVal.jS _) => true
  | _ => false

/-- A response body carrying at minimum a boolean `success` and a string
`message`. -/
def wellShaped (r : Response) : Bool :=
  hasBoolKey r.body "success" && hasStrKey r.body "message"

/-- Every character of the string is a decimal digit. -/
def allDigitChars (s : String) : Bool :=
  s.data.all Char.isDigit

instance : IsTotal BookingRecord newerFirst :=
  ⟨fun a b => Nat.le_total b.createdAt a.createdAt⟩

instance : IsTrans BookingRecord newerFirst :=
  ⟨fun _ _ _ hab hbc => Nat.le_trans hbc hab⟩

/-- A fully-populated valid request body used for concrete runs. -/
def okBody : ReqBody :=
  { name := some " Alice "
    email := some " a@x.com "
    phone := some " 123 "
    carModel := some " Sedan "
    carId := some "2"
    pickupDate := some "2024-01-01"
    returnDate := some "2024-01-03"
    location := some "Downtown"
    requests := none
    dailyRate := some "50"
    rentalDays := some "2"
    totalAmount := some "100"
    extra := [] }

/-- Create-run inputs with a connected store and a succeeding save. -/
def okIn : CreateIn :=
  { conn := 1
    body := okBody
    t1 := 1700
    r1 := 7
    t2 := 1701
    r2 := 13
    tc1 := 5
    tc2 := 6
    o1 := SaveOutcome.ok
    o2 := SaveOutcome.ok
    dev := false
    tsResp := "ts" }

/-- A duplicate-key error as Mongo reports it. -/
def dupErr : JsError :=
  { name := "MongoServerError", code := some 11000, message := "E11000 duplicate key" }

/-- A second, distinct duplicate-key error for the retry attempt. -/
def dupErr2 : JsError :=
  { name := "MongoServerError", code := some 11000, message := "E11000 duplicate key again" }

/-- A store error with no numeric code. -/
def netErr : JsError :=
  { name := "MongoNetworkError", code := none, message := "boom" }

/-- A request whose `name` is whitespace-only (truthy in JS). -/
def c1In : CreateIn :=
  { okIn with body := { okBody with name := some " " } }

/-- A request with `email` absent. -/
def c1MissingIn : CreateIn :=
  { okIn with body := { okBody with email := none } }

/-- A request whose first save hits a duplicate key and whose retry
succeeds. -/
def c2RetryOkIn : CreateIn :=
  { okIn with o1 := SaveOutcome.fail dupErr, o2 := SaveOutcome.ok }

/-- A request whose first save and retry both hit duplicate keys. -/
def c2RetryDupIn : CreateIn :=
  { okIn with o1 := SaveOutcome.fail dupErr, o2 := SaveOutcome.fail dupErr2 }

/-- A request arriving while the connection is down. -/
def c3DownIn : CreateIn :=
  { okIn with conn := 0 }

/-- A booking record with the given identifier and creation time, used to
build concrete stores. -/
def mkRec (i : Nat) (t : Nat) : BookingRecord :=
  { _id := i
    name := "n"
    email := "e"
    phone := "p"
    carModel := "m"
    carId := 1
    pickupDate := none
    returnDate := none
    pickupLocation := none
    specialRequests := ""
    dailyRate := 0
    rentalDays := 1
    totalAmount := 0
    bookingId := "CRx"
    status := "confirmed"
    createdAt := t }

/-- A store of 15 records created at times 0,…,14. -/
def c4Store : List BookingRecord :=
  (List.range 15).map (fun i => mkRec i i)

/-- The projections of the 10 most recently created records of `c4Store`,
newest first. -/
def c4Expected : List ListedBooking :=
  [14, 13, 12, 11, 10, 9, 8, 7, 6, 5].map (fun i => projectBooking (mkRec i i))

/-- A request whose `carId` is the numeral `0`. -/
def c6ZeroIn : CreateIn :=
  { okIn with body := { okBody with carId := some "0", rentalDays := some "0" } }

/-- The record appended to an empty store by the `okIn` run. -/
def okRec : BookingRecord :=
  persist [] (bookingDataOf okBody (genBookingId okIn.t1 okIn.r1.val)) okIn.tc1

/-- Newest-first order on listed projections. -/
def listedNewerFirst (p q : ListedBooking) : Prop :=
  q.createdAt ≤ p.createdAt

/-- The truthiness validation of the four required fields, as the handler
tests it. -/
def validBody (b : ReqBody) : Prop :=
  jsTruthy b.name ∧ jsTruthy b.email ∧ jsTruthy b.phone ∧ jsTruthy b.carModel

instance (b : ReqBody) : Decidable (validBody b) :=
  inferInstanceAs (Decidable (_ ∧ _ ∧ _ ∧ _))

theorem createBooking_ok_eq (inp : CreateIn) (store : List BookingRecord)
    (hconn : inp.conn.val = 1) (hv : validBody inp.body)
    (ho : inp.o1 = SaveOutcome.ok) :
    createBooking inp store =
      (createdResponse
        (persist store (bookingDataOf inp.body (genBookingId inp.t1 inp.r1.val)) inp.tc1)
        inp.tsResp,
       store ++
        [persist store (bookingDataOf inp.body (genBookingId inp.t1 inp.r1.val)) inp.tc1]) := by
  unfold createBooking
  rw [if_neg (by simp [hconn]), if_neg (by simpa [validBody] using hv), ho]

theorem createBooking_retry_ok_eq (inp : CreateIn) (store : List BookingRecord)
    (hconn : inp.conn.val = 1) (hv : validBody inp.body)
    (e : JsError) (ho : inp.o1 = SaveOutcome.fail e) (hd : isDupKey e = true)
    (ho2 : inp.o2 = SaveOutcome.ok) :
    createBooking inp store =
      (createdResponse
        (persist store
          { bookingDataOf inp.body (genBookingId inp.t1 inp.r1.val) with
            bookingId := genBookingId inp.t2 inp.r2.val } inp.tc2)
        inp.tsResp,
       store ++
        [persist store
          { bookingDataOf inp.body (genBookingId inp.t1 inp.r1.val) with
            bookingId := genBookingId inp.t2 inp.r2.val } inp.tc2]) := by
  unfold createBooking
  rw [if_neg (by simp [hconn]), if_neg (by simpa [validBody] using hv), ho]
  simp [hd, ho2]

theorem createBooking_retry_fail_eq (inp : CreateIn) (store : List BookingRecord)
    (hconn : inp.conn.val = 1) (hv : validBody inp.body)
    (e e2 : JsError) (ho : inp.o1 = SaveOutcome.fail e) (hd : isDupKey e = true)
    (ho2 : inp.o2 = SaveOutcome.fail e2) :
    createBooking inp store = (errorResponse inp.dev e2, store) := by
  unfold createBooking
  rw [if_neg (by simp [hconn]), if_neg (by simpa [validBody] using hv), ho]
  simp [hd, ho2]

/-- C1 counterexample: a create request whose `name` is the whitespace-only
string `" "` is not rejected — the handler's `!name` test sees a truthy
string, so the request is accepted with status 201 and a record is
persisted (with the trimmed, hence empty, name), contradicting the claimed
400-and-nothing-persisted behavior for fields empty after trimming. -/
theorem c1_whitespace_only_accepted :
    (createBooking c1In []).1.status = 201 ∧
    (createBooking c1In []).2.length = 1 ∧
    (createBooking c1In []).2.map (fun b => b.name) = [""] := by decide

/-- C1 (amended): for every create request on a connected store in which any
of `name`, `email`, `phone`, `carModel` is absent or the empty string (no
trimming is applied before the test), the handler responds 400 Bad Request
and the store is unchanged; whitespace-only values instead pass validation. -/
theorem c1_missing_or_empty_rejected (inp : CreateIn) (store : List BookingRecord)
    (hconn : inp.conn.val = 1)
    (h : inp.body.name = none ∨ inp.body.name = some "" ∨
         inp.body.email = none ∨ inp.body.email = some "" ∨
         inp.body.phone = none ∨ inp.body.phone = some "" ∨
         inp.body.carModel = none ∨ inp.body.carModel = some "") :
    (createBooking inp store).1 = validationFailResponse ∧
    (createBooking inp store).1.status = 400 ∧
    (createBooking inp store).2 = store := by
  have hv : ¬(jsTruthy inp.body.name ∧ jsTruthy inp.body.email ∧
              jsTruthy inp.body.phone ∧ jsTruthy inp.body.carModel) := by
    rcases h with h | h | h | h | h | h | h | h <;> simp [jsTruthy, h]
  unfold createBooking
  rw [if_neg (by simp [hconn]), if_pos hv]
  exact ⟨rfl, rfl, rfl⟩

theorem c1_missing_or_empty_rejected_witness :
    (createBooking c1MissingIn []).1.status = 400 ∧
    (createBooking c1MissingIn []).2 = [] :=
  ⟨(c1_missing_or_empty_rejected c1MissingIn [] (by decide) (by decide)).2.1,
   (c1_missing_or_empty_rejected c1MissingIn [] (by decide) (by decide)).2.2⟩

/-- C5 counterexample: in the `bookingData` object, `carModel` is stored
verbatim (`carModel: carModel`), not trimmed: the input `" Sedan "` is
persisted as `" Sedan "` although its trim is `"Sedan"`, contradicting the
claim that all four text fields are stored trimmed. -/
theorem c5_carModel_not_trimmed :
    (createBooking okIn []).2.map (fun b => b.carModel) = [" Sedan "] ∧
    jsTrim (jsOrEmpty okBody.carModel) = "Sedan" ∧
    (" Sedan " : String) ≠ "Sedan" := by decide

/-- C5 (amended): for every create request that passes validation and whose
save succeeds, the stored `name`, `email` and `phone` equal the input with
surrounding whitespace trimmed, while `carModel` is stored exactly as sent,
untrimmed. -/
theorem c5_trim_behavior (inp : CreateIn) (store : List BookingRecord)
    (hconn : inp.conn.val = 1) (hv : validBody inp.body)
    (ho : inp.o1 = SaveOutcome.ok) :
    ∃ saved, (createBooking inp store).2 = store ++ [saved] ∧
      saved.name = jsTrim (jsOrEmpty inp.body.name) ∧
      saved.email = jsTrim (jsOrEmpty inp.body.email) ∧
      saved.phone = jsTrim (jsOrEmpty inp.body.phone) ∧
      saved.carModel = jsOrEmpty inp.body.carModel := by
  refine ⟨persist store (bookingDataOf inp.body (genBookingId inp.t1 inp.r1.val)) inp.tc1,
    ?_, rfl, rfl, rfl, rfl⟩
  rw [createBooking_ok_eq inp store hconn hv ho]

theorem c5_trim_behavior_witness :
    (createBooking okIn []).2.map (fun b => (b.name, b.email, b.phone, b.carModel)) =
      [("Alice", "a@x.com", "123", " Sedan ")] := by
  obtain ⟨saved, hs, hn, he, hp, hc⟩ :=
    c5_trim_behavior okIn [] (by decide) (by decide) (by decide)
  rw [hs]
  simp only [List.nil_append, List.map_cons, List.map_nil, hn, he, hp, hc]
  decide

/-- C6 counterexample: `parseInt(carId) || 1` maps a successfully parsed `0`
to the fallback `1` because `0` is falsy in JS: the input `"0"` parses to
`0` yet is stored as `1` (likewise `rentalDays`), contradicting the claim
that the parsed integer is stored whenever parsing succeeds. -/
theorem c6_zero_falls_back_to_one :
    jsParseInt c6ZeroIn.body.carId = some 0 ∧
    jsParseInt c6ZeroIn.body.rentalDays = some 0 ∧
    (createBooking c6ZeroIn []).2.map (fun b => (b.carId, b.rentalDays)) = [(1, 1)] := by
  decide

/-- C6 (amended): for every create request that passes validation and whose
save succeeds, `carId` and `rentalDays` are stored as the parsed integer
when parsing succeeds with a nonzero value, and fall back to 1 when parsing
fails or yields 0; `dailyRate` and `totalAmount` are stored as the parsed
decimal when parsing succeeds and fall back to 0 on parse failure. -/
theorem c6_numeric_coercion (inp : CreateIn) (store : List BookingRecord)
    (hconn : inp.conn.val = 1) (hv : validBody inp.body)
    (ho : inp.o1 = SaveOutcome.ok) :
    ∃ saved, (createBooking inp store).2 = store ++ [saved] ∧
      (∀ v : Int, jsParseInt inp.body.carId = some v → v ≠ 0 → saved.carId = v) ∧
      ((jsParseInt inp.body.carId = none ∨ jsParseInt inp.body.carId = some 0) →
        saved.carId = 1) ∧
      (∀ v : Int, jsParseInt inp.body.rentalDays = some v → v ≠ 0 →
        saved.rentalDays = v) ∧
      ((jsParseInt inp.body.rentalDays = none ∨ jsParseInt inp.body.rentalDays = some 0) →
        saved.rentalDays = 1) ∧
      (∀ q : ℚ, jsParseFloat inp.body.dailyRate = some q → q ≠ 0 →
        saved.dailyRate = q) ∧
      ((jsParseFloat inp.body.dailyRate = none ∨ jsParseFloat inp.body.dailyRate = some 0) →
        saved.dailyRate = 0) ∧
      (∀ q : ℚ, jsParseFloat inp.body.totalAmount = some q → q ≠ 0 →
        saved.totalAmount = q) ∧
      ((jsParseFloat inp.body.totalAmount = none ∨ jsParseFloat inp.body.totalAmount = some 0) →
        saved.totalAmount = 0) := by
  refine ⟨persist store (bookingDataOf inp.body (genBookingId inp.t1 inp.r1.val)) inp.tc1,
    ?_, ?_, ?_, ?_, ?_, ?_, ?_, ?_, ?_⟩
  · rw [createBooking_ok_eq inp store hconn hv ho]
  · intro v hp hnz
    simp [persist, bookingDataOf, jsOrInt, hp, hnz]
  · rintro (hp | hp) <;> simp [persist, bookingDataOf, jsOrInt, hp]
  · intro v hp hnz
    simp [persist, bookingDataOf, jsOrInt, hp, hnz]
  · rintro (hp | hp) <;> simp [persist, bookingDataOf, jsOrInt, hp]
  · intro q hp hnz
    simp [persist, bookingDataOf, jsOrRat, hp, hnz]
  · rintro (hp | hp) <;> simp [persist, bookingDataOf, jsOrRat, hp]
  · intro q hp hnz
    simp [persist, bookingDataOf, jsOrRat, hp, hnz]
  · rintro (hp | hp) <;> simp [persist, bookingDataOf, jsOrRat, hp]

theorem c6_numeric_coercion_witness :
    (createBooking okIn []).2.map (fun b => (b.carId, b.dailyRate, b.totalAmount)) =
      [((2 : Int), (50 : ℚ), (100 : ℚ))] := by
  obtain ⟨saved, hs, h1, _, _, _, h5, _, h7, _⟩ :=
    c6_numeric_coercion okIn [] (by decide) (by decide) (by decide)
  rw [hs]
  simp only [List.nil_append, List.map_cons, List.map_nil]
  rw [h1 2 (by decide) (by decide), h5 50 (by decide) (by decide),
      h7 100 (by decide) (by decide)]

/-- C2: when the first save fails with the duplicate-key code 11000, the
handler regenerates the identifier (from the second timestamp/random draw)
and retries exactly once: a successful retry yields 201 with exactly one
record appended under the regenerated identifier, and a second duplicate-key
failure is mapped to 409 Conflict with the store unchanged (no further
retry is attempted). -/
theorem c2_single_retry (inp : CreateIn) (store : List BookingRecord)
    (hconn : inp.conn.val = 1) (hv : validBody inp.body)
    (e : JsError) (ho : inp.o1 = SaveOutcome.fail e) (hd : isDupKey e = true) :
    (inp.o2 = SaveOutcome.ok →
      (createBooking inp store).1.status = 201 ∧
      (createBooking inp store).2 = store ++
        [persist store
          { bookingDataOf inp.body (genBookingId inp.t1 inp.r1.val) with
            bookingId := genBookingId inp.t2 inp.r2.val } inp.tc2]) ∧
    (∀ e2 : JsError, inp.o2 = SaveOutcome.fail e2 → e2.code = some 11000 →
      e2.name ≠ "ValidationError" →
      (createBooking inp store).1.status = 409 ∧
      (createBooking inp store).2 = store) := by
  constructor
  · intro ho2
    rw [createBooking_retry_ok_eq inp store hconn hv e ho hd ho2]
    exact ⟨rfl, rfl⟩
  · intro e2 ho2 hcode hname
    rw [createBooking_retry_fail_eq inp store hconn hv e e2 ho hd ho2]
    refine ⟨?_, rfl⟩
    simp [errorResponse, hcode, hname]

theorem c2_single_retry_witness :
    (createBooking c2RetryOkIn []).1.status = 201 ∧
    (createBooking c2RetryDupIn []).1.status = 409 :=
  ⟨((c2_single_retry c2RetryOkIn [] (by decide) (by decide) dupErr (by decide)
      (by decide)).1 (by decide)).1,
   ((c2_single_retry c2RetryDupIn [] (by decide) (by decide) dupErr (by decide)
      (by decide)).2 dupErr2 (by decide) (by decide) (by decide)).1⟩

/-- C3: when the connection state is anything but connected, the create
handler answers 503 Service Unavailable with its fixed body, for every
request body and store, and leaves the store untouched (the check precedes
validation and any save); and a list request whose store read fails — as it
does when the connection is down — answers 500. -/
theorem c3_disconnected_responses (inp : CreateIn) (store : List BookingRecord)
    (hconn : inp.conn.val ≠ 1) :
    (createBooking inp store).1 = dbUnavailableResponse ∧
    (createBooking inp store).1.status = 503 ∧
    (createBooking inp store).2 = store ∧
    (∀ (e : JsError) (s : List BookingRecord), (listBookings s (some e)).status = 500) := by
  unfold createBooking
  rw [if_pos hconn]
  exact ⟨rfl, rfl, rfl, fun e s => rfl⟩

theorem c3_disconnected_responses_witness :
    (createBooking c3DownIn []).1.status = 503 ∧
    (createBooking c3DownIn []).2 = [] ∧
    (listBookings [] (some netErr)).status = 500 := by
  refine ⟨(c3_disconnected_responses c3DownIn [] (by decide)).2.1,
    (c3_disconnected_responses c3DownIn [] (by decide)).2.2.1,
    (c3_disconnected_responses c3DownIn [] (by decide)).2.2.2 netErr []⟩

theorem digitChar_isDigit {m : Nat} (h : m < 10) :
    (Nat.digitChar m).isDigit = true := by
  interval_cases m <;> decide

theorem toDigitsCore_digits (fuel : Nat) :
    ∀ (n : Nat) (ds : List Char), (∀ c ∈ ds, c.isDigit = true) →
      ∀ c ∈ Nat.toDigitsCore 10 fuel n ds, c.isDigit = true := by
  induction fuel with
  | zero =>
    intro n ds hds c hc
    exact hds c hc
  | succ fuel ih =>
    intro n ds hds c hc
    rw [Nat.toDigitsCore] at hc
    have hcons : ∀ x ∈ Nat.digitChar (n % 10) :: ds, x.isDigit = true := by
      intro x hx
      rcases List.mem_cons.mp hx with hx | hx
      · exact hx ▸ digitChar_isDigit (Nat.mod_lt n (by norm_num))
      · exact hds x hx
    by_cases h : n / 10 = 0
    · rw [if_pos h] at hc
      exact hcons c hc
    · rw [if_neg h] at hc
      exact ih (n / 10) (Nat.digitChar (n % 10) :: ds) hcons c hc

theorem natRepr_allDigits (n : Nat) : allDigitChars (toString n) = true := by
  have h := toDigitsCore_digits (n + 1) n [] (by intro c hc; cases hc)
  simp only [allDigitChars, List.all_eq_true, decide_eq_true_eq]
  intro c hc
  exact h c hc

theorem allDigitChars_append (a b : String)
    (ha : allDigitChars a = true) (hb : allDigitChars b = true) :
    allDigitChars (a ++ b) = true := by
  simp only [allDigitChars, String.data_append, List.all_append, Bool.and_eq_true] at *
  exact ⟨ha, hb⟩

/-- C8: for every create request that passes validation on a connected
store, the random draw of the first identifier generation lies in 0–999 and
that of the retry in 0–9999; if the first save succeeds the response is 201
and its `bookingId` is `"CR"` followed by the decimal timestamp concatenated
with the decimal random draw of the first generation — a pure digit string
after the `"CR"` prefix — and if the first save hits a duplicate key and the
retry succeeds, the response is 201 with the retry-generated identifier of
the same shape. -/
theorem c8_booking_id_shape (inp : CreateIn) (store : List BookingRecord)
    (hconn : inp.conn.val = 1) (hv : validBody inp.body) :
    inp.r1.val < 1000 ∧ inp.r2.val < 10000 ∧
    (inp.o1 = SaveOutcome.ok →
      (createBooking inp store).1.status = 201 ∧
      getField (createBooking inp store).1.body "bookingId" =
        some (JVal.jS (genBookingId inp.t1 inp.r1.val)) ∧
      genBookingId inp.t1 inp.r1.val =
        "CR" ++ (toString inp.t1 ++ toString inp.r1.val) ∧
      allDigitChars (toString inp.t1 ++ toString inp.r1.val) = true) ∧
    (∀ e : JsError, inp.o1 = SaveOutcome.fail e → isDupKey e = true →
      inp.o2 = SaveOutcome.ok →
      (createBooking inp store).1.status = 201 ∧
      getField (createBooking inp store).1.body "bookingId" =
        some (JVal.jS (genBookingId inp.t2 inp.r2.val)) ∧
      genBookingId inp.t2 inp.r2.val =
        "CR" ++ (toString inp.t2 ++ toString inp.r2.val) ∧
      allDigitChars (toString inp.t2 ++ toString inp.r2.val) = true) := by
  refine ⟨inp.r1.isLt, inp.r2.isLt, ?_, ?_⟩
  · intro ho
    rw [createBooking_ok_eq inp store hconn hv ho]
    refine ⟨rfl, rfl, (String.append_assoc "CR" (toString inp.t1) (toString inp.r1.val)).symm ▸ rfl, ?_⟩
    exact allDigitChars_append _ _ (natRepr_allDigits inp.t1) (natRepr_allDigits inp.r1.val)
  · intro e ho hd ho2
    rw [createBooking_retry_ok_eq inp store hconn hv e ho hd ho2]
    refine ⟨rfl, rfl, (String.append_assoc "CR" (toString inp.t2) (toString inp.r2.val)).symm ▸ rfl, ?_⟩
    exact allDigitChars_append _ _ (natRepr_allDigits inp.t2) (natRepr_allDigits inp.r2.val)

theorem c8_booking_id_shape_witness :
    (createBooking okIn []).1.status = 201 ∧
    getField (createBooking okIn []).1.body "bookingId" =
      some (JVal.jS "CR17007") :=
  ⟨((c8_booking_id_shape okIn [] (by decide) (by decide)).2.2.1 (by decide)).1,
   by
    have h := ((c8_booking_id_shape okIn [] (by decide) (by decide)).2.2.1 (by decide)).2.1
    rw [h]
    decide⟩

/-- C4: a successful list request answers 200 and its `bookings` field holds
the projections (store id, bookingId, name, carModel, status, createdAt) of
`findLatestTen`: it contains `min 10 |store|` entries (so at most 10, and
exactly 10 once the store holds 15 records), is ordered by creation time
newest-first, every entry is the projection of a store record, every store
record left out was created no later than every entry returned, and on the
concrete 15-record store the result is exactly the projections of the 10
most recently created records. -/
theorem c4_list_latest_ten (store : List BookingRecord) :
    (listBookings store none).status = 200 ∧
    getField (listBookings store none).body "bookings" =
      some (JVal.jList ((findLatestTen store).map projectBooking)) ∧
    ((findLatestTen store).map projectBooking).length = min 10 store.length ∧
    List.Pairwise listedNewerFirst ((findLatestTen store).map projectBooking) ∧
    (∀ p ∈ (findLatestTen store).map projectBooking,
      ∃ b ∈ store, p = projectBooking b) ∧
    (∀ b ∈ store, projectBooking b ∉ (findLatestTen store).map projectBooking →
      ∀ p ∈ (findLatestTen store).map projectBooking, b.createdAt ≤ p.createdAt) ∧
    getField (listBookings c4Store none).body "bookings" =
      some (JVal.jList c4Expected) := by
  have hs : List.Pairwise newerFirst (store.insertionSort newerFirst) :=
    List.sorted_insertionSort newerFirst store
  have hperm := List.perm_insertionSort newerFirst store
  refine ⟨rfl, rfl, ?_, ?_, ?_, ?_, by decide⟩
  · simp [findLatestTen, List.length_take, List.length_insertionSort]
  · exact List.Pairwise.map projectBooking (fun a b h => h)
      (List.Pairwise.sublist (List.take_sublist 10 _) hs)
  · intro p hp
    obtain ⟨x, hx, rfl⟩ := List.mem_map.mp hp
    exact ⟨x, hperm.mem_iff.mp (List.take_subset 10 _ hx), rfl⟩
  · intro b hb hnot p hp
    have hsplit :
        store.insertionSort newerFirst =
          (store.insertionSort newerFirst).take 10 ++
            (store.insertionSort newerFirst).drop 10 :=
      (List.take_append_drop 10 _).symm
    have hrel := (List.pairwise_append.mp (hsplit ▸ hs)).2.2
    have hbs : b ∈ store.insertionSort newerFirst := hperm.mem_iff.mpr hb
    have hbdrop : b ∈ (store.insertionSort newerFirst).drop 10 := by
      rcases List.mem_append.mp (hsplit ▸ hbs) with h | h
      · exact absurd (List.mem_map_of_mem projectBooking h) hnot
      · exact h
    obtain ⟨x, hx, hpx⟩ := List.mem_map.mp hp
    have hxb : newerFirst x b := hrel x hx b hbdrop
    rw [← hpx]
    exact hxb

theorem c4_list_latest_ten_witness :
    (listBookings c4Store none).status = 200 ∧
    ((findLatestTen c4Store).map projectBooking).length = min 10 c4Store.length ∧
    getField (listBookings c4Store none).body "bookings" =
      some (JVal.jList c4Expected) :=
  ⟨(c4_list_latest_ten c4Store).1,
   (c4_list_latest_ten c4Store).2.2.1,
   (c4_list_latest_ten c4Store).2.2.2.2.2.2⟩

/-- C7 counterexample: outside development mode internal error detail still
reaches clients — the list handler's 500 body unconditionally carries
`error: error.message` (here the store error string `"boom"`), and the
create handler's catch body unconditionally carries `code: error.code`
(here the store error code 11000), contradicting the claim that no
exception message, error code, or store error string appears in any error
body. -/
theorem c7_detail_leaks :
    getField (listBookings [] (some netErr)).body "error" =
      some (JVal.jS "boom") ∧
    getField (errorResponse false dupErr2).body "code" =
      some (JVal.jI 11000) := by decide

/-- C7 (amended): outside development mode the create handler's catch
responses and the top-level error middleware omit the exception message
(`error` field absent), but the create catch body still carries the numeric
`code` whenever the error has one, the create 503 body carries a fixed
`error` string, and the list handler's 500 body always carries the store
error message. -/
theorem c7_error_detail_partially_withheld (e : JsError) :
    getField (errorResponse false e).body "error" = none ∧
    getField (errorMiddleware false e).body "error" = none ∧
    (∀ c : Int, e.code = some c →
      getField (errorResponse false e).body "code" = some (JVal.jI c)) ∧
    (∀ store : List BookingRecord,
      getField (listBookings store (some e)).body "error" =
        some (JVal.jS e.message)) ∧
    getField dbUnavailableResponse.body "error" =
      some (JVal.jS "Database disconnected") := by
  refine ⟨?_, rfl, ?_, fun store => rfl, rfl⟩
  · rcases he : e.code with _ | c <;> simp only [errorResponse, he] <;> rfl
  · intro c hc
    simp only [errorResponse, hc]
    rfl

theorem c7_error_detail_partially_withheld_witness :
    getField (errorResponse false netErr).body "error" = none ∧
    getField (errorResponse false dupErr).body "code" = some (JVal.jI 11000) ∧
    getField (listBookings [] (some netErr)).body "error" =
      some (JVal.jS netErr.message) :=
  ⟨(c7_error_detail_partially_withheld netErr).1,
   (c7_error_detail_partially_withheld dupErr).2.2.1 11000 (by decide),
   (c7_error_detail_partially_withheld netErr).2.2.2.1 []⟩

/-- C9 counterexample: two responses lack the claimed minimum shape — the
root liveness body has no `success` boolean at all, and the list handler's
success body has no `message` string, contradicting the claim that every
response carries both. -/
theorem c9_shape_violations :
    wellShaped (rootHandler 1 "t") = false ∧
    wellShaped (listBookings [] none) = false := by decide

/-- C9 (amended): every response of the service carries a boolean `success`
and a string `message`, except that the root liveness body carries a
`message` but no `success` field, and the list handler's success body
carries `success` but no `message`; the create handler (all outcomes), the
list failure path, db-status, the 404 fallback and the top-level error
middleware all carry both. -/
theorem c9_response_shape :
    (∀ (conn : Fin 4) (ts : String),
      hasStrKey (rootHandler conn ts).body "message" = true ∧
      hasBoolKey (rootHandler conn ts).body "success" = false) ∧
    (∀ store : List BookingRecord,
      hasBoolKey (listBookings store none).body "success" = true ∧
      hasStrKey (listBookings store none).body "message" = false) ∧
    (∀ (store : List BookingRecord) (e : JsError),
      wellShaped (listBookings store (some e)) = true) ∧
    (∀ (inp : CreateIn) (store : List BookingRecord),
      wellShaped (createBooking inp store).1 = true) ∧
    (∀ (conn : Fin 4) (cnt : Option Int) (db : String),
      wellShaped (dbStatusHandler conn cnt db) = true) ∧
    (∀ url : String, wellShaped (notFoundHandler url) = true) ∧
    (∀ (dev : Bool) (e : JsError), wellShaped (errorMiddleware dev e) = true) := by
  refine ⟨fun conn ts => ⟨rfl, rfl⟩, fun store => ⟨rfl, rfl⟩,
    fun store e => rfl, ?_, ?_, fun url => rfl, fun dev e => rfl⟩
  · intro inp store
    unfold createBooking
    repeat' split
    all_goals rfl
  · intro conn cnt db
    unfold dbStatusHandler
    split
    all_goals rfl

theorem createBooking_snd_cases (inp : CreateIn) (store : List BookingRecord) :
    (createBooking inp store).2 = store ∨
    ∃ saved, (createBooking inp store).2 = store ++ [saved] ∧
      saved.status = "confirmed" := by
  unfold createBooking
  repeat' split
  · exact Or.inl rfl
  · exact Or.inl rfl
  · exact Or.inr ⟨_, rfl, rfl⟩
  · exact Or.inr ⟨_, rfl, rfl⟩
  · exact Or.inl rfl
  · exact Or.inl rfl

theorem runOps_confirmed (ops : List ApiOp) :
    ∀ store : List BookingRecord, (∀ b ∈ store, b.status = "confirmed") →
      ∀ b ∈ runOps ops store, b.status = "confirmed" := by
  induction ops with
  | nil => exact fun store h => h
  | cons op ops ih =>
    intro store h b hb
    refine ih (applyOp store op) ?_ b hb
    intro x hx
    cases op with
    | create inp =>
      rcases createBooking_snd_cases inp store with hc | ⟨saved, hc, hst⟩
      · exact h x (by simpa [applyOp, hc] using hx)
      · have hx' : x ∈ store ++ [saved] := by simpa [applyOp, hc] using hx
        rcases List.mem_append.mp hx' with hx' | hx'
        · exact h x hx'
        · simpa [List.mem_singleton.mp hx'] using hst
    | list o => exact h x hx
    | root c t => exact h x hx
    | dbStatus c n d => exact h x hx
    | notFound u => exact h x hx
    | errorFallback d e => exact h x hx

/-- C10: every record reachable in the store through any sequence of API
requests starting from an empty store has status `"confirmed"` (the create
handler hard-codes the status and no exposed operation updates or deletes
records), and the create handler's behavior — response and resulting store —
is completely independent of request-body fields other than the twelve it
destructures, so a client-supplied `status` or any other extra field is
never read and never written. -/
theorem c10_status_confirmed_invariant :
    (∀ ops : List ApiOp, ∀ b ∈ runOps ops [], b.status = "confirmed") ∧
    (∀ (inp : CreateIn) (store : List BookingRecord)
      (extra2 : List (String × String)),
      createBooking { inp with body := { inp.body with extra := extra2 } } store =
        createBooking inp store) := by
  constructor
  · intro ops b hb
    exact runOps_confirmed ops [] (by intro x hx; cases hx) b hb
  · intro inp store extra2
    obtain ⟨conn, body, t1, r1, t2, r2, tc1, tc2, o1, o2, dev, ts⟩ := inp
    obtain ⟨n, em, ph, cm, ci, pd, rd, loc, rq, dr, rdy, ta, ex⟩ := body
    rfl

theorem c10_status_confirmed_invariant_witness :
    okRec ∈ runOps [ApiOp.create okIn] [] ∧ okRec.status = "confirmed" :=
  ⟨by decide,
   c10_status_confirmed_invariant.1 [ApiOp.create okIn] okRec (by decide)⟩

end CarRental
